import Mathlib

/-!
Verification development for the ship planning and optimization estimators:
the route optimizer, the fuel predictor and the maintenance forecaster.
Numeric JavaScript values are embedded as rationals (exact arithmetic) except
for the great-circle distance, which uses real trigonometric functions.
Trained neural-network models are embedded as opaque function parameters,
and per-call pseudo-random draws as explicit arguments.
-/

namespace ShipPlanning

/-- JS Math.round on a rational: round half toward positive infinity. -/
def jsRound (x : ℚ) : ℤ := ⌊x + 1/2⌋

/-- Rounding to 2 decimal places, as in Math.round(x * 100) / 100. -/
def round2 (x : ℚ) : ℚ := (jsRound (x * 100) : ℚ) / 100

/-- Rounding to 6 decimal places, as in Math.round(x * 1000000) / 1000000. -/
def round6 (x : ℚ) : ℚ := (jsRound (x * 1000000) : ℚ) / 1000000

/-- Rounding to 1 decimal place, as in Math.round(x * 10) / 10. -/
def round1 (x : ℚ) : ℚ := (jsRound (x * 10) : ℚ) / 10

/-- Coordinates of a location, from the voyage schema. -/
structure GeoPoint where
  latitude : ℚ
  longitude : ℚ
deriving DecidableEq

/-- JS comparison `o > c` where `o` may be undefined (undefined compares false). -/
def optGT (o : Option ℚ) (c : ℚ) : Bool :=
  match o with
  | some v => decide (c < v)
  | none => false

/-- JS comparison `o < c` where `o` may be undefined (undefined compares false). -/
def optLT (o : Option ℚ) (c : ℚ) : Bool :=
  match o with
  | some v => decide (v < c)
  | none => false

/-- JS `o || d` on a numeric field: the default replaces both a missing value
and the falsy value 0. -/
def jsOrQ (o : Option ℚ) (d : ℚ) : ℚ :=
  match o with
  | some v => if v = 0 then d else v
  | none => d

/-- JS `o || d` on an integer field. -/
def jsOrZ (o : Option ℤ) (d : ℤ) : ℤ :=
  match o with
  | some v => if v = 0 then d else v
  | none => d

namespace MaintenanceForecaster

/-- Component types handled by the forecaster, in declaration order. -/
inductive ComponentType
  | engine
  | hull
  | navigation
  | safety
  | electrical
  | propulsion
deriving DecidableEq, Repr

/-- The fixed component list of predictMaintenance, in declaration order. -/
def componentTypes : List ComponentType :=
  [.engine, .hull, .navigation, .safety, .electrical, .propulsion]

/-- Display name of a component type, as used in recommendation strings. -/
def componentName : ComponentType → String
  | .engine => "engine"
  | .hull => "hull"
  | .navigation => "navigation"
  | .safety => "safety"
  | .electrical => "electrical"
  | .propulsion => "propulsion"

/-- Ship profile fields read by the maintenance forecaster. -/
structure ShipData where
  yearBuilt : Option ℤ
  lastMaintenanceMs : Option ℚ
  currentLocation : Option GeoPoint
  hullMaterialSteel : Bool

/-- Usage telemetry fields read by the maintenance forecaster; `fieldCount` is
the number of keys present on the JS object. -/
structure UsageData where
  engineHours : Option ℚ
  operatingHoursPerDay : Option ℚ
  averageWaveHeight : Option ℚ
  averageWindSpeed : Option ℚ
  operatingTemperature : Option ℚ
  complexRoutes : Bool
  averageLoadFactor : Option ℚ
  averageSpeed : Option ℚ
  fieldCount : ℕ

/-- Ship age in years, from `new Date().getFullYear() - (yearBuilt || 2010)`. -/
def shipAgeOf (currentYear : ℤ) (shipData : ShipData) : ℤ :=
  currentYear - jsOrZ shipData.yearBuilt 2010

/-- Engine hours, estimated as shipAge * 2000 when telemetry is absent or 0. -/
def engineHoursOf (currentYear : ℤ) (shipData : ShipData) (usageData : UsageData) : ℚ :=
  jsOrQ usageData.engineHours ((shipAgeOf currentYear shipData : ℚ) * 2000)

/-- Days since last maintenance, defaulting to 365 when unknown. -/
def lastMaintenanceDays (nowMs : ℚ) (shipData : ShipData) : ℚ :=
  match shipData.lastMaintenanceMs with
  | some t => (nowMs - t) / 86400000
  | none => 365

/-- calculateUsageIntensity: operatingHoursPerDay / 24 capped at 1, default 0.6
when the field is absent or 0 (falsy). -/
def calculateUsageIntensity (usageData : UsageData) : ℚ :=
  match usageData.operatingHoursPerDay with
  | none => 0.6
  | some h => if h = 0 then 0.6 else min 1 (h / 24)

/-- calculateOperatingConditions: base severity 3 plus environmental bonuses,
capped at 10. -/
def calculateOperatingConditions (usageData : UsageData) : ℚ :=
  let s1 : ℚ := 3
  let s2 := if optGT usageData.averageWaveHeight 3 then s1 + 2 else s1
  let s3 := if optGT usageData.averageWindSpeed 20 then s2 + 1 else s2
  let s4 := if optGT usageData.operatingTemperature 40 || optLT usageData.operatingTemperature 0
    then s3 + 1 else s3
  let s5 := if usageData.complexRoutes then s4 + 2 else s4
  min 10 s5

/-- calculateEnvironmentalStress: base 2 + 1 salt water, latitude bonuses,
capped at 5. -/
def calculateEnvironmentalStress (shipData : ShipData) : ℚ :=
  let stress : ℚ := 2 + 1
  let stress2 :=
    match shipData.currentLocation with
    | none => stress
    | some loc =>
      let a := if 60 < |loc.latitude| then stress + 2 else stress
      if |loc.latitude| < 23.5 then a + 1 else a
  min 5 stress2

/-- Component-specific base vibration table. -/
def baseVibration : ComponentType → ℚ
  | .engine => 6
  | .propulsion => 7
  | .hull => 4
  | .navigation => 2
  | .electrical => 3
  | .safety => 2

/-- calculateVibrationLevel: base table plus speed and wave bonuses, capped 10. -/
def calculateVibrationLevel (componentType : ComponentType) (usageData : UsageData) : ℚ :=
  let v := baseVibration componentType
  let v2 := if optGT usageData.averageSpeed 20 then v + 2 else v
  let v3 := if optGT usageData.averageWaveHeight 4 then v2 + 1 else v2
  min 10 v3

/-- Temperature-sensitive components per calculateTemperatureStress. -/
def tempSensitive : ComponentType → Bool
  | .electrical => true
  | .navigation => true
  | .engine => true
  | _ => false

/-- calculateTemperatureStress: base 2 plus bonuses for sensitive components,
capped at 5. -/
def calculateTemperatureStress (componentType : ComponentType) (usageData : UsageData) : ℚ :=
  let stress : ℚ := 2
  let s2 :=
    if tempSensitive componentType then
      let a := if optGT usageData.operatingTemperature 35 then stress + 2 else stress
      if optLT usageData.operatingTemperature 5 then a + 1 else a
    else stress
  min 5 s2

/-- calculateCorrosionRisk: base 3 plus age factor and hull-material bonus,
capped at 8. -/
def calculateCorrosionRisk (currentYear : ℤ) (shipData : ShipData) : ℚ :=
  let risk : ℚ := 3
  let shipAge : ℚ := (shipAgeOf currentYear shipData : ℚ)
  let risk2 := risk + min 3 (shipAge / 10)
  let risk3 := if shipData.hullMaterialSteel then risk2 + 1 else risk2
  min 8 risk3

/-- calculatePredictionConfidence of the maintenance forecaster: base 0.75 plus
data-richness and recency bonuses, capped at 0.95. -/
def calculatePredictionConfidence (nowMs : ℚ) (shipData : ShipData) (usageData : UsageData) : ℚ :=
  let confidence : ℚ := 0.75
  let c2 := confidence + min 0.15 ((usageData.fieldCount : ℚ) * 0.02)
  let c3 :=
    match shipData.lastMaintenanceMs with
    | none => c2
    | some t => if (nowMs - t) / 86400000 < 90 then c2 + 0.05 else c2
  min 0.95 c3

/-- calculatePriority from maintenanceForecaster.js: maintenance priority from
the rounded risk score and days-until-maintenance. -/
def calculatePriority (riskScore daysUntilMaintenance : ℤ) : String :=
  if 80 < riskScore ∨ daysUntilMaintenance < 30 then "critical"
  else if 60 < riskScore ∨ daysUntilMaintenance < 90 then "high"
  else if 40 < riskScore ∨ daysUntilMaintenance < 180 then "medium"
  else "low"

/-- getRecommendedAction from maintenanceForecaster.js. -/
def getRecommendedAction (riskScore daysUntilMaintenance : ℤ) : String :=
  if 85 < riskScore ∨ daysUntilMaintenance < 15 then "immediate_action"
  else if 70 < riskScore ∨ daysUntilMaintenance < 45 then "schedule_soon"
  else if 50 < riskScore ∨ daysUntilMaintenance < 120 then "plan_maintenance"
  else "monitor"

/-- Follows the spec's words: priority is critical if riskScore>80 or
daysUntilMaintenance<30, high if riskScore>60 or daysUntilMaintenance<90,
medium if riskScore>40 or daysUntilMaintenance<180, else low. -/
def specPriority (riskScore daysUntilMaintenance : ℤ) : String :=
  if riskScore > 80 ∨ daysUntilMaintenance < 30 then "critical"
  else if riskScore > 60 ∨ daysUntilMaintenance < 90 then "high"
  else if riskScore > 40 ∨ daysUntilMaintenance < 180 then "medium"
  else "low"

/-- Follows the spec's words: recommendedAction is immediate_action if
riskScore>85 or daysUntilMaintenance<15, schedule_soon if riskScore>70 or
daysUntilMaintenance<45, plan_maintenance if riskScore>50 or
daysUntilMaintenance<120, else monitor. -/
def specRecommendedAction (riskScore daysUntilMaintenance : ℤ) : String :=
  if riskScore > 85 ∨ daysUntilMaintenance < 15 then "immediate_action"
  else if riskScore > 70 ∨ daysUntilMaintenance < 45 then "schedule_soon"
  else if riskScore > 50 ∨ daysUntilMaintenance < 120 then "plan_maintenance"
  else "monitor"

/-- Per-component base maintenance cost table. -/
def baseCosts : ComponentType → ℤ
  | .engine => 50000
  | .hull => 80000
  | .propulsion => 40000
  | .navigation => 15000
  | .electrical => 20000
  | .safety => 10000

/-- estimateMaintenanceCost: base cost times (1 + riskScore/100), rounded. -/
def estimateMaintenanceCost (componentType : ComponentType) (riskScore : ℤ) : ℤ :=
  jsRound ((baseCosts componentType : ℚ) * (1 + (riskScore : ℚ) / 100))

/-- generateComponentRecommendations from maintenanceForecaster.js. -/
def generateComponentRecommendations (componentType : ComponentType)
    (riskScore daysUntilMaintenance failureProbability : ℤ) : List String :=
  (if 75 < riskScore then
    ["High risk detected for " ++ componentName componentType ++ " - prioritize inspection"]
   else []) ++
  (if daysUntilMaintenance < 60 then
    ["Schedule " ++ componentName componentType ++ " maintenance within " ++
      toString daysUntilMaintenance ++ " days"]
   else []) ++
  (if 70 < failureProbability then
    ["Consider immediate replacement of " ++ componentName componentType ++ " components"]
   else []) ++
  (match componentType with
   | .engine =>
     if 60 < riskScore then ["Perform oil analysis and engine performance diagnostics"] else []
   | .hull =>
     if 50 < riskScore then ["Schedule underwater hull inspection for corrosion and damage"] else []
   | .navigation => ["Verify all navigation equipment calibration and software updates"]
   | _ => [])

/-- One per-component prediction record returned by predictComponentMaintenance.
The predicted failure date is represented by its millisecond offset from now. -/
structure ComponentPrediction where
  componentType : ComponentType
  daysUntilMaintenance : ℤ
  riskScore : ℤ
  failureProbability : ℤ
  confidence : ℚ
  priority : String
  estimatedCost : ℤ
  recommendedAction : String
  recommendations : List String
  predictedFailureOffsetMs : ℚ
deriving DecidableEq

/-- The 12-entry normalized input vector fed to the main maintenance model. -/
def maintenanceInput (currentYear : ℤ) (nowMs : ℚ) (shipData : ShipData)
    (usageData : UsageData) (componentType : ComponentType) (componentIndex : ℕ) : List ℚ :=
  [(shipAgeOf currentYear shipData : ℚ) / 25,
   engineHoursOf currentYear shipData usageData / 100000,
   lastMaintenanceDays nowMs shipData / 730,
   (componentIndex : ℚ) / 6,
   calculateUsageIntensity usageData,
   calculateOperatingConditions usageData / 10,
   0.8,
   calculateEnvironmentalStress shipData / 5,
   jsOrQ usageData.averageLoadFactor 0.7,
   calculateVibrationLevel componentType usageData / 10,
   calculateTemperatureStress componentType usageData / 5,
   calculateCorrosionRisk currentYear shipData / 8]

/-- The 8-entry input vector fed to the component risk model.  `rng` is the
fresh Math.random() value drawn on this call: componentAge is
shipAge * (0.5 + rng * 0.5). -/
def componentInput (currentYear : ℤ) (shipData : ShipData) (usageData : UsageData)
    (componentType : ComponentType) (rng : ℚ) : List ℚ :=
  let shipAge : ℚ := (shipAgeOf currentYear shipData : ℚ)
  let componentAge := shipAge * (0.5 + rng * 0.5)
  [componentAge / 25,
   engineHoursOf currentYear shipData usageData / 100000,
   (calculateOperatingConditions usageData + calculateEnvironmentalStress shipData +
     calculateVibrationLevel componentType usageData) / 30,
   jsOrQ usageData.averageLoadFactor 0.7,
   calculateTemperatureStress componentType usageData / 5,
   calculateCorrosionRisk currentYear shipData / 8,
   0.8,
   calculateUsageIntensity usageData]

/-- predictComponentMaintenance: the two trained models are passed as opaque
functions from the normalized input vector to their (normalized) outputs. -/
def predictComponentMaintenance (mainModel : List ℚ → ℚ × ℚ) (riskModel : List ℚ → ℚ)
    (currentYear : ℤ) (nowMs : ℚ) (shipData : ShipData) (usageData : UsageData)
    (componentType : ComponentType) (componentIndex : ℕ) (rng : ℚ) : ComponentPrediction :=
  let m := mainModel (maintenanceInput currentYear nowMs shipData usageData componentType componentIndex)
  let riskData := riskModel (componentInput currentYear shipData usageData componentType rng)
  let daysUntilMaintenance := jsRound (m.1 * 730)
  let riskScore := jsRound (m.2 * 100)
  let failureProbability := jsRound (riskData * 100)
  { componentType := componentType,
    daysUntilMaintenance := daysUntilMaintenance,
    riskScore := riskScore,
    failureProbability := failureProbability,
    confidence := calculatePredictionConfidence nowMs shipData usageData,
    priority := calculatePriority riskScore daysUntilMaintenance,
    estimatedCost := estimateMaintenanceCost componentType riskScore,
    recommendedAction := getRecommendedAction riskScore daysUntilMaintenance,
    recommendations :=
      generateComponentRecommendations componentType riskScore daysUntilMaintenance failureProbability,
    predictedFailureOffsetMs := (daysUntilMaintenance : ℚ) * 86400000 }

/-- Sort order of the JS comparator (a, b) => b.riskScore - a.riskScore:
a precedes b when a's risk score is at least b's. -/
def riskDescOrder (a b : ComponentPrediction) : Prop :=
  b.riskScore ≤ a.riskScore

instance : DecidableRel riskDescOrder :=
  fun a b => inferInstanceAs (Decidable (b.riskScore ≤ a.riskScore))

/-- Stable descending sort by riskScore, as Array.prototype.sort with the
comparator (a, b) => b.riskScore - a.riskScore. -/
def sortByRiskDesc (l : List ComponentPrediction) : List ComponentPrediction :=
  List.insertionSort riskDescOrder l

instance : IsTotal ComponentPrediction riskDescOrder :=
  ⟨fun a b => le_total b.riskScore a.riskScore⟩

instance : IsTrans ComponentPrediction riskDescOrder :=
  ⟨fun _ _ _ hab hbc => le_trans hbc hab⟩

/-- The earliest entry of maximal riskScore in a list of predictions: ties are
broken in favor of the earlier entry, matching the head of a stable descending
sort. -/
def firstMaxByRisk : List ComponentPrediction → Option ComponentPrediction
  | [] => none
  | p :: ps =>
    match firstMaxByRisk ps with
    | none => some p
    | some m => if p.riskScore < m.riskScore then some m else some p

/-- Sort order of the JS comparator (a, b) => a.daysUntilMaintenance -
b.daysUntilMaintenance used for maintenance windows. -/
def daysAscOrder (a b : ComponentPrediction) : Prop :=
  a.daysUntilMaintenance ≤ b.daysUntilMaintenance

instance : DecidableRel daysAscOrder :=
  fun a b => inferInstanceAs (Decidable (a.daysUntilMaintenance ≤ b.daysUntilMaintenance))

/-- generateOverallRecommendations from maintenanceForecaster.js. -/
def generateOverallRecommendations (predictions : List ComponentPrediction) : List String :=
  let criticalCount := (predictions.filter (fun p => p.priority == "critical")).length
  let highCount := (predictions.filter (fun p => p.priority == "high")).length
  (if 0 < criticalCount then
    [toString criticalCount ++ " critical maintenance item(s) require immediate attention"]
   else []) ++
  (if 2 < highCount then
    ["Multiple high-priority maintenance items - consider extended maintenance window"]
   else []) ++
  (match (predictions.map (fun p => p.daysUntilMaintenance)).min? with
   | some m => if m < 30 then ["Plan for upcoming maintenance window within 30 days"] else []
   | none => [])

/-- Fixed nominal maintenance duration per component, in days. -/
def getMaintenanceDuration : ComponentType → ℤ
  | .engine => 7
  | .hull => 10
  | .propulsion => 5
  | .navigation => 2
  | .electrical => 3
  | .safety => 1

/-- A grouped maintenance window; the start date is represented by `startMs`. -/
structure MaintenanceWindow where
  startMs : ℚ
  components : List ComponentType
  totalCost : ℤ
  durationDays : ℤ
deriving DecidableEq

/-- calculateOptimalMaintenanceWindows: group the components due within 90 days,
taken in ascending order of daysUntilMaintenance, into a single window. -/
def calculateOptimalMaintenanceWindows (nowMs : ℚ)
    (predictions : List ComponentPrediction) : List MaintenanceWindow :=
  let sorted := List.insertionSort daysAscOrder predictions
  let near := sorted.filter (fun p => decide (p.daysUntilMaintenance < 90))
  if near.isEmpty then []
  else
    [{ startMs := nowMs,
       components := near.map (fun p => p.componentType),
       totalCost := (near.map (fun p => p.estimatedCost)).sum,
       durationDays := near.foldl (fun d p => max d (getMaintenanceDuration p.componentType)) 0 }]

/-- Aggregated cost estimate of a forecast. -/
structure CostEstimate where
  total : ℤ
  critical : ℤ
  nextSixMonths : ℤ
deriving DecidableEq

/-- calculateMaintenanceCosts from maintenanceForecaster.js. -/
def calculateMaintenanceCosts (predictions : List ComponentPrediction) : CostEstimate :=
  { total := (predictions.map (fun p => p.estimatedCost)).sum,
    critical :=
      ((predictions.filter (fun p => p.priority == "critical")).map (fun p => p.estimatedCost)).sum,
    nextSixMonths :=
      ((predictions.filter (fun p => decide (p.daysUntilMaintenance < 180))).map
        (fun p => p.estimatedCost)).sum }

/-- The full maintenance forecast record. -/
structure MaintenanceForecast where
  predictions : List ComponentPrediction
  overallRecommendations : List String
  nextCriticalMaintenance : Option ComponentPrediction
  maintenanceWindows : List MaintenanceWindow
  costEstimate : CostEstimate
  timestampMs : ℚ

/-- The unsorted per-component predictions of predictMaintenance, one for each
of the six fixed component types in declaration order; the i-th call consumes
the i-th pseudo-random draw `rng i`. -/
def rawPredictions (mainModel : List ℚ → ℚ × ℚ) (riskModel : List ℚ → ℚ)
    (currentYear : ℤ) (nowMs : ℚ) (shipData : ShipData) (usageData : UsageData)
    (rng : ℕ → ℚ) : List ComponentPrediction :=
  componentTypes.enum.map (fun pair =>
    predictComponentMaintenance mainModel riskModel currentYear nowMs shipData usageData
      pair.2 pair.1 (rng pair.1))

/-- predictMaintenance: one per-component prediction for each of the six fixed
component types (the i-th call consumes the i-th pseudo-random draw `rng i`),
sorted descending by risk score; nextCriticalMaintenance is predictions[0]. -/
def predictMaintenance (mainModel : List ℚ → ℚ × ℚ) (riskModel : List ℚ → ℚ)
    (currentYear : ℤ) (nowMs : ℚ) (shipData : ShipData) (usageData : UsageData)
    (rng : ℕ → ℚ) : MaintenanceForecast :=
  let raw := rawPredictions mainModel riskModel currentYear nowMs shipData usageData rng
  let predictions := sortByRiskDesc raw
  { predictions := predictions,
    overallRecommendations := generateOverallRecommendations predictions,
    nextCriticalMaintenance := predictions.head?,
    maintenanceWindows := calculateOptimalMaintenanceWindows nowMs predictions,
    costEstimate := calculateMaintenanceCosts predictions,
    timestampMs := nowMs }

end MaintenanceForecaster

/-- One weather forecast entry, with the fields the estimators read. -/
structure WeatherObservation where
  windSpeed : Option ℚ
  waveHeight : Option ℚ
  visibility : Option ℚ

/-- JS String.prototype.includes, as list infix on the characters. -/
def strIncludes (s pat : String) : Bool :=
  decide (pat.toList <:+: s.toList)

namespace FuelPredictor

/-- Ship profile fields read by the fuel predictor. -/
structure Ship where
  capacity : Option ℚ
  engineType : String
  yearBuilt : Option ℤ

/-- A named location with coordinates. -/
structure Location where
  name : Option String
  coordinates : GeoPoint

/-- Voyage fields read by the fuel predictor; `cargoWeight` is
voyage.cargoLoad.weight. -/
structure VoyageParams where
  origin : Location
  destination : Location
  cargoWeight : ℚ
  weatherForecast : List WeatherObservation

/-- Route optimizer output fields consumed by the fuel predictor. -/
structure RouteData where
  totalDistance : ℚ
  optimalSpeed : Option ℚ

/-- The parameter record of predictFuelConsumption. -/
structure FuelParams where
  ship : Ship
  voyage : VoyageParams
  routeData : RouteData

/-- calculateWeatherImpact of fuelPredictor.js: per-observation wind and wave
points, averaged and capped at 10; default 3 on an empty forecast. -/
def calculateWeatherImpact (weatherForecast : List WeatherObservation) : ℚ :=
  if weatherForecast.isEmpty then 3
  else
    let perObs := fun (f : WeatherObservation) =>
      (if optGT f.windSpeed 30 then (4 : ℚ)
       else if optGT f.windSpeed 20 then 3
       else if optGT f.windSpeed 15 then 2
       else if optGT f.windSpeed 10 then 1
       else 0) +
      (if optGT f.waveHeight 5 then (3 : ℚ)
       else if optGT f.waveHeight 3 then 2
       else if optGT f.waveHeight 1.5 then 1
       else 0)
    min 10 ((weatherForecast.map perObs).sum / (weatherForecast.length : ℚ))

/-- calculateSeaConditions: floor of the average wave height (missing or zero
height counts as 1), capped at 6; default 2 on an empty forecast. -/
def calculateSeaConditions (weatherForecast : List WeatherObservation) : ℚ :=
  if weatherForecast.isEmpty then 2
  else
    let totalWaveHeight := (weatherForecast.map (fun f => jsOrQ f.waveHeight 1)).sum
    min 6 ((⌊totalWaveHeight / (weatherForecast.length : ℚ)⌋ : ℚ))

/-- calculateEngineLoad: 0.6 + 0.2·loadFactor + 0.2·speed/20, capped at 1. -/
def calculateEngineLoad (cargoWeight shipCapacity speed : ℚ) : ℚ :=
  min 1.0 (0.6 + (cargoWeight / shipCapacity) * 0.2 + (speed / 20) * 0.2)

/-- The complex-region name fragments of calculateRouteComplexity. -/
def complexRegions : List String :=
  ["Mediterranean", "Baltic", "Persian Gulf", "Malacca Strait"]

/-- Whether a location name matches one of the complex regions. -/
def nameInComplexRegion (name : Option String) : Bool :=
  match name with
  | some n => complexRegions.any (fun region => strIncludes n region)
  | none => false

/-- calculateRouteComplexity: base 1 plus region and coordinate-delta bonuses,
capped at 5. -/
def calculateRouteComplexity (origin destination : Location) : ℚ :=
  let c1 : ℚ := 1
  let c2 := if nameInComplexRegion origin.name then c1 + 1 else c1
  let c3 := if nameInComplexRegion destination.name then c2 + 1 else c2
  let dist := |destination.coordinates.latitude - origin.coordinates.latitude| +
    |destination.coordinates.longitude - origin.coordinates.longitude|
  let c4 := if 100 < dist then c3 + 1 else c3
  let c5 := if 180 < dist then c4 + 1 else c4
  min 5 c5

/-- getFuelTypeMultiplier: fixed lookup table with default 1.0 for unknown
engine types. -/
def getFuelTypeMultiplier (engineType : String) : ℚ :=
  if engineType = "diesel" then 1.0
  else if engineType = "heavy-fuel-oil" then 1.15
  else if engineType = "gas-turbine" then 0.85
  else if engineType = "hybrid" then 0.75
  else if engineType = "electric" then 0.1
  else 1.0

/-- Price per ton used by calculateFuelCost, with default 500 for unknown
engine types. -/
def fuelPricePerTon (engineType : String) : ℚ :=
  if engineType = "diesel" then 650
  else if engineType = "heavy-fuel-oil" then 450
  else if engineType = "gas-turbine" then 800
  else if engineType = "hybrid" then 550
  else if engineType = "electric" then 100
  else 500

/-- calculateFuelCost = fuelConsumption × price per ton. -/
def calculateFuelCost (fuelConsumption : ℚ) (engineType : String) : ℚ :=
  fuelConsumption * fuelPricePerTon engineType

/-- CO2 factor used by calculateEmissions, with default 3.0 for unknown engine
types. -/
def emissionFactor (engineType : String) : ℚ :=
  if engineType = "diesel" then 3.2
  else if engineType = "heavy-fuel-oil" then 3.4
  else if engineType = "gas-turbine" then 2.8
  else if engineType = "hybrid" then 2.0
  else if engineType = "electric" then 0.5
  else 3.0

/-- calculateEmissions = fuelConsumption × CO2 factor. -/
def calculateEmissions (fuelConsumption : ℚ) (engineType : String) : ℚ :=
  fuelConsumption * emissionFactor engineType

/-- calculateEfficiency = distance·cargo / fuel, 0 on degenerate inputs. -/
def calculateEfficiency (fuelConsumption distance cargoWeight : ℚ) : ℚ :=
  if fuelConsumption = 0 ∨ cargoWeight = 0 then 0
  else (distance * cargoWeight) / fuelConsumption

/-- Ship age as seen by the fuel predictor. -/
def shipAgeOf (currentYear : ℤ) (ship : Ship) : ℚ :=
  ((currentYear - jsOrZ ship.yearBuilt 2010 : ℤ) : ℚ)

/-- The 10-entry normalized input vector fed to the fuel model. -/
def fuelInput (currentYear : ℤ) (params : FuelParams) : List ℚ :=
  let shipCapacity := jsOrQ params.ship.capacity 40000
  let cargoWeight := params.voyage.cargoWeight
  let distance := params.routeData.totalDistance
  let speed := jsOrQ params.routeData.optimalSpeed 15
  [shipCapacity / 80000,
   cargoWeight / 80000,
   distance / 8000,
   speed / 25,
   calculateWeatherImpact params.voyage.weatherForecast / 10,
   calculateSeaConditions params.voyage.weatherForecast / 6,
   calculateEngineLoad cargoWeight shipCapacity speed,
   calculateRouteComplexity params.voyage.origin params.voyage.destination / 5,
   getFuelTypeMultiplier params.ship.engineType,
   shipAgeOf currentYear params.ship / 30]

/-- Denormalized raw fuel consumption: model output × 1000. -/
def rawFuelConsumption (model : List ℚ → ℚ) (currentYear : ℤ) (params : FuelParams) : ℚ :=
  model (fuelInput currentYear params) * 1000

/-- calculatePredictionConfidence of fuelPredictor.js: base 0.8, weather,
distance and ship-age adjustments, clamped to [0.5, 0.95]. -/
def calculatePredictionConfidence (currentYear : ℤ) (params : FuelParams) : ℚ :=
  let confidence : ℚ := 0.8
  let weatherScore := calculateWeatherImpact params.voyage.weatherForecast
  let c2 := if 7 < weatherScore then confidence - 0.1 else confidence
  let c3 := if 9 < weatherScore then c2 - 0.1 else c2
  let distance := params.routeData.totalDistance
  let c4 := if distance < 50 ∨ 5000 < distance then c3 - 0.1 else c3
  let shipAge := shipAgeOf currentYear params.ship
  let c5 := if shipAge < 5 then c4 + 0.05 else c4
  max 0.5 (min 0.95 c5)

/-- getInfluencingFactors from fuelPredictor.js. -/
def getInfluencingFactors (weatherScore seaConditions engineLoad : ℚ) : List String :=
  (if 6 < weatherScore then ["High wind conditions (+15% consumption)"] else []) ++
  (if 4 < seaConditions then ["Rough seas (+10% consumption)"] else []) ++
  (if 0.9 < engineLoad then ["High engine load (+8% consumption)"] else []) ++
  (if weatherScore < 3 ∧ seaConditions < 2 then ["Excellent conditions (-5% consumption)"] else [])

/-- generateEfficiencyRecommendations from fuelPredictor.js. -/
def generateEfficiencyRecommendations (efficiency weatherScore : ℚ) : List String :=
  (if efficiency < 50 then
    ["Consider reducing speed by 10% to improve fuel efficiency",
     "Review cargo distribution for optimal trim"]
   else []) ++
  (if 6 < weatherScore then
    ["Wait for better weather conditions if schedule permits",
     "Consider alternative route to avoid severe weather"]
   else []) ++
  (if 80 < efficiency then ["Excellent efficiency - maintain current parameters"] else [])

/-- The fuel estimate record returned by predictFuelConsumption. -/
structure FuelEstimate where
  estimatedConsumption : ℚ
  efficiency : ℚ
  costEstimate : ℚ
  emissionsEstimate : ℚ
  confidence : ℚ
  factors : List String
  recommendations : List String

/-- predictFuelConsumption: the trained model is an opaque function from the
normalized input vector to the normalized consumption. -/
def predictFuelConsumption (model : List ℚ → ℚ) (currentYear : ℤ)
    (params : FuelParams) : FuelEstimate :=
  let fuelConsumption := rawFuelConsumption model currentYear params
  let distance := params.routeData.totalDistance
  let cargoWeight := params.voyage.cargoWeight
  let shipCapacity := jsOrQ params.ship.capacity 40000
  let speed := jsOrQ params.routeData.optimalSpeed 15
  let weatherScore := calculateWeatherImpact params.voyage.weatherForecast
  let seaConditions := calculateSeaConditions params.voyage.weatherForecast
  let engineLoad := calculateEngineLoad cargoWeight shipCapacity speed
  let efficiency := calculateEfficiency fuelConsumption distance cargoWeight
  { estimatedConsumption := round2 fuelConsumption,
    efficiency := round2 efficiency,
    costEstimate := round2 (calculateFuelCost fuelConsumption params.ship.engineType),
    emissionsEstimate := round2 (calculateEmissions fuelConsumption params.ship.engineType),
    confidence := calculatePredictionConfidence currentYear params,
    factors := getInfluencingFactors weatherScore seaConditions engineLoad,
    recommendations := generateEfficiencyRecommendations efficiency weatherScore }

/-- Follows the spec's words for C6: confidence starts at 0.8, loses 0.1 when
the weather impact exceeds 7 and a further 0.1 when it exceeds 9, loses 0.1
when the distance is outside [50, 5000], gains 0.05 when the ship age is under
5 years, clamped to [0.5, 0.95]. -/
def specFuelConfidence (weatherImpact distance shipAge : ℚ) : ℚ :=
  let base : ℚ := 0.8
  let a1 := if weatherImpact > 7 then base - 0.1 else base
  let a2 := if weatherImpact > 9 then a1 - 0.1 else a1
  let a3 := if distance < 50 ∨ distance > 5000 then a2 - 0.1 else a2
  let a4 := if shipAge < 5 then a3 + 0.05 else a3
  max 0.5 (min 0.95 a4)

end FuelPredictor

namespace RouteOptimizer

/-- calculateWeatherScore of the route optimizer: per-observation wind, wave
and visibility points, averaged and capped at 10; default 3 when the forecast
is empty or missing. -/
def calculateWeatherScore (weatherForecast : List WeatherObservation) : ℚ :=
  if weatherForecast.isEmpty then 3
  else
    let perObs := fun (f : WeatherObservation) =>
      (if optGT f.windSpeed 25 then (3 : ℚ)
       else if optGT f.windSpeed 15 then 2
       else if optGT f.windSpeed 10 then 1
       else 0) +
      (if optGT f.waveHeight 4 then (3 : ℚ)
       else if optGT f.waveHeight 2 then 2
       else if optGT f.waveHeight 1 then 1
       else 0) +
      (if optLT f.visibility 1 then (2 : ℚ)
       else if optLT f.visibility 5 then 1
       else 0)
    min 10 ((weatherForecast.map perObs).sum / (weatherForecast.length : ℚ))

/-- Real-valued coordinates, for the trigonometric distance computation. -/
structure GeoPointR where
  latitude : ℝ
  longitude : ℝ

/-- JS Math.atan2 on real arguments. -/
noncomputable def atan2 (y x : ℝ) : ℝ :=
  if 0 < x then Real.arctan (y / x)
  else if x < 0 ∧ 0 ≤ y then Real.arctan (y / x) + Real.pi
  else if x < 0 then Real.arctan (y / x) - Real.pi
  else if 0 < y then Real.pi / 2
  else if y < 0 then -(Real.pi / 2)
  else 0

/-- calculateDistance: haversine great-circle distance with Earth radius
3440.065 nautical miles. -/
noncomputable def calculateDistance (coord1 coord2 : GeoPointR) : ℝ :=
  let earthRadius : ℝ := 3440.065
  let lat1Rad := coord1.latitude * Real.pi / 180
  let lat2Rad := coord2.latitude * Real.pi / 180
  let deltaLatRad := (coord2.latitude - coord1.latitude) * Real.pi / 180
  let deltaLonRad := (coord2.longitude - coord1.longitude) * Real.pi / 180
  let a := Real.sin (deltaLatRad / 2) * Real.sin (deltaLatRad / 2) +
    Real.cos lat1Rad * Real.cos lat2Rad *
    Real.sin (deltaLonRad / 2) * Real.sin (deltaLonRad / 2)
  let c := 2 * atan2 (Real.sqrt a) (Real.sqrt (1 - a))
  earthRadius * c

/-- JS Math.round on a real: round half toward positive infinity. -/
noncomputable def jsRoundR (x : ℝ) : ℤ := ⌊x + 1/2⌋

/-- Rounding a real to 6 decimal places. -/
noncomputable def round6R (x : ℝ) : ℝ := (jsRoundR (x * 1000000) : ℝ) / 1000000

/-- Rounding a real to 1 decimal place. -/
noncomputable def round1R (x : ℝ) : ℝ := (jsRoundR (x * 10) : ℝ) / 10

/-- A generated waypoint; the timestamp is represented by its millisecond
offset from now (waypoints are one hour apart). -/
structure WaypointR where
  latitude : ℝ
  longitude : ℝ
  timestampOffsetMs : ℝ
  speed : ℝ

/-- generateWaypoints: numWaypoints+1 linearly interpolated points between
start and stop, rounded to 6 decimal places, hourly timestamps, fixed
speed 15. -/
noncomputable def generateWaypoints (start stop : GeoPointR) (numWaypoints : ℕ) : List WaypointR :=
  (List.range (numWaypoints + 1)).map fun (i : ℕ) =>
    let frac : ℝ := (i : ℝ) / (numWaypoints : ℝ)
    { latitude := round6R (start.latitude + (stop.latitude - start.latitude) * frac),
      longitude := round6R (start.longitude + (stop.longitude - start.longitude) * frac),
      timestampOffsetMs := (i : ℝ) * 3600000,
      speed := 15 }

/-- generateRecommendations of the route optimizer. -/
def generateRecommendations (weatherScore seaConditions : ℚ) : List String :=
  let recs :=
    (if 7 < weatherScore then
      ["Consider delaying departure due to severe weather conditions",
       "Monitor weather updates continuously during voyage"]
     else if 5 < weatherScore then
      ["Proceed with caution - moderate weather expected",
       "Maintain regular communication with weather services"]
     else []) ++
    (if 3 < seaConditions then
      ["Reduce speed in high sea conditions for safety",
       "Secure all cargo properly before departure"]
     else [])
  if recs.isEmpty then ["Optimal conditions for voyage - proceed as planned"] else recs

/-- The route optimization result record. -/
structure RouteResult where
  optimalSpeed : ℝ
  estimatedTime : ℝ
  estimatedFuelConsumption : ℝ
  totalDistance : ℝ
  waypoints : List WaypointR
  recommendations : List String
  confidence : ℝ

/-- optimizeRoute: the trained model is an opaque function from the normalized
8-entry input vector to the three normalized outputs; the per-call
pseudo-random draws seaConditions, trafficDensity and portCongestion are
explicit arguments. -/
noncomputable def optimizeRoute (model : List ℝ → ℝ × ℝ × ℝ)
    (origin destination : GeoPointR) (cargoWeight : ℝ)
    (weatherForecast : List WeatherObservation)
    (seaConditions trafficDensity portCongestion : ℚ) : RouteResult :=
  let distance := calculateDistance origin destination
  let weatherScore := calculateWeatherScore weatherForecast
  let fuelPrice : ℝ := 450
  let p := model
    [distance / 5000,
     cargoWeight / 50000,
     (weatherScore : ℝ) / 10,
     15 / 25,
     fuelPrice / 500,
     (seaConditions : ℝ) / 5,
     (trafficDensity : ℝ) / 10,
     (portCongestion : ℝ) / 5]
  { optimalSpeed := round1R (p.1 * 25),
    estimatedTime := round1R (p.2.1 * 300),
    estimatedFuelConsumption := round1R (p.2.2 * 1000),
    totalDistance := round1R distance,
    waypoints := generateWaypoints origin destination 10,
    recommendations := generateRecommendations weatherScore seaConditions,
    confidence := 0.85 }

/-- Subdocument of a stored voyage holding the planned route. -/
structure PlannedRouteDoc where
  totalDistance : ℚ

/-- Subdocument of a stored voyage holding the cargo load. -/
structure CargoLoadDoc where
  weight : ℚ

/-- Subdocument of a stored voyage holding the optimization metrics. -/
structure OptimizationMetricsDoc where
  optimalSpeed : ℚ

/-- Subdocument of a stored voyage holding the actual route. -/
structure ActualRouteDoc where
  actualDuration : ℚ

/-- Subdocument of a stored voyage holding the fuel prediction. -/
structure FuelPredictionDoc where
  actualConsumption : ℚ

/-- A stored voyage document as read by the feedback updaters; a missing
subdocument causes a TypeError in the JS property access. -/
structure VoyageDoc where
  plannedRoute : Option PlannedRouteDoc
  cargoLoad : Option CargoLoadDoc
  optimizationMetrics : Option OptimizationMetricsDoc
  actualRoute : Option ActualRouteDoc
  fuelPrediction : Option FuelPredictionDoc

/-- One accumulated feedback entry of the route optimizer. -/
structure RouteFeedback where
  features : List ℚ
  results : List ℚ
deriving DecidableEq

/-- extractFeaturesFromVoyage: throws when plannedRoute or cargoLoad is
missing. -/
def extractFeaturesFromVoyage (voyageData : VoyageDoc) : Except String (List ℚ) :=
  match voyageData.plannedRoute, voyageData.cargoLoad with
  | some pr, some cl => .ok [pr.totalDistance / 5000, cl.weight / 50000]
  | _, _ => .error ("TypeError")

/-- extractResultsFromVoyage: throws when optimizationMetrics, actualRoute or
fuelPrediction is missing. -/
def extractResultsFromVoyage (voyageData : VoyageDoc) : Except String (List ℚ) :=
  match voyageData.optimizationMetrics, voyageData.actualRoute, voyageData.fuelPrediction with
  | some om, some ar, some fp =>
    .ok [om.optimalSpeed / 25, ar.actualDuration / 300, fp.actualConsumption / 1000]
  | _, _, _ => .error ("TypeError")

/-- The try-block of updateModelWithFeedback: extract, append, and decide
whether to retrain (every 100 accumulated entries). The Bool records whether
the retraining routine was invoked. -/
def updateModelWithFeedbackTry (trainingData : List RouteFeedback) (voyageData : VoyageDoc) :
    Except String (List RouteFeedback × Bool) :=
  match extractFeaturesFromVoyage voyageData with
  | .error e => .error e
  | .ok features =>
    match extractResultsFromVoyage voyageData with
    | .error e => .error e
    | .ok results =>
      let td := trainingData ++ [⟨features, results⟩]
      .ok (td, td.length % 100 == 0)

/-- updateModelWithFeedback: the catch block logs and swallows any error,
leaving the buffer unchanged and the caller unaffected. -/
def updateModelWithFeedback (trainingData : List RouteFeedback) (voyageData : VoyageDoc) :
    Except String (List RouteFeedback × Bool) :=
  match updateModelWithFeedbackTry trainingData voyageData with
  | .ok r => .ok r
  | .error _ => .ok (trainingData, false)

end RouteOptimizer

namespace FuelPredictor

/-- One accumulated feedback entry of the fuel predictor; features are the
stubbed empty extraction of extractFeaturesFromVoyageData. -/
structure FuelFeedback where
  features : List ℚ
  actualConsumption : ℚ
  timestampMs : ℚ
deriving DecidableEq

/-- extractFeaturesFromVoyageData: the source's stub returns the empty list. -/
def extractFeaturesFromVoyageData (_voyageData : RouteOptimizer.VoyageDoc) : List ℚ := []

/-- The try-block of updateModelWithActualData: reading
voyageData.fuelPrediction.actualConsumption throws when fuelPrediction is
missing; otherwise append and decide whether to retrain (every 50 accumulated
entries). -/
def updateModelWithActualDataTry (historicalData : List FuelFeedback)
    (voyageData : RouteOptimizer.VoyageDoc) (nowMs : ℚ) :
    Except String (List FuelFeedback × Bool) :=
  match voyageData.fuelPrediction with
  | none => .error ("TypeError")
  | some fp =>
    let entry : FuelFeedback :=
      ⟨extractFeaturesFromVoyageData voyageData, fp.actualConsumption, nowMs⟩
    let hist := historicalData ++ [entry]
    .ok (hist, hist.length % 50 == 0)

/-- updateModelWithActualData: the catch block logs and swallows any error,
leaving the buffer unchanged and the caller unaffected. -/
def updateModelWithActualData (historicalData : List FuelFeedback)
    (voyageData : RouteOptimizer.VoyageDoc) (nowMs : ℚ) :
    Except String (List FuelFeedback × Bool) :=
  match updateModelWithActualDataTry historicalData voyageData nowMs with
  | .ok r => .ok r
  | .error _ => .ok (historicalData, false)

end FuelPredictor

end ShipPlanning

namespace ShipPlanning

/-- C2: for every pair (riskScore, daysUntilMaintenance), the priority and the
recommended action computed by the code agree with the spec's threshold tables,
in particular at every boundary value, since the statement is universally
quantified over the integer inputs. -/
theorem c2_priority_action_pure (r d : ℤ) :
    MaintenanceForecaster.calculatePriority r d = MaintenanceForecaster.specPriority r d ∧
    MaintenanceForecaster.getRecommendedAction r d = MaintenanceForecaster.specRecommendedAction r d :=
  ⟨rfl, rfl⟩

/-- C10: for every engine type outside the known table keys, the fuel
predictor falls back to multiplier 1.0, price 500 per ton and CO2 factor 3.0,
so an unknown engine type never fails. -/
theorem c10_unknown_engine_defaults (engineType : String)
    (h : engineType ∉ ["diesel", "heavy-fuel-oil", "gas-turbine", "hybrid", "electric"]) :
    FuelPredictor.getFuelTypeMultiplier engineType = 1 ∧
    FuelPredictor.fuelPricePerTon engineType = 500 ∧
    FuelPredictor.emissionFactor engineType = 3 := by
  simp only [List.mem_cons, List.not_mem_nil, or_false, not_or] at h
  obtain ⟨h1, h2, h3, h4, h5⟩ := h
  refine ⟨?_, ?_, ?_⟩ <;>
    simp [FuelPredictor.getFuelTypeMultiplier, FuelPredictor.fuelPricePerTon,
      FuelPredictor.emissionFactor, h1, h2, h3, h4, h5] <;> norm_num

/-- Witness for C10 at the concrete unknown engine type "steam". -/
theorem c10_unknown_engine_defaults_witness :
    ("steam" ∉ ["diesel", "heavy-fuel-oil", "gas-turbine", "hybrid", "electric"]) ∧
    (FuelPredictor.getFuelTypeMultiplier ("steam") = 1 ∧
     FuelPredictor.fuelPricePerTon ("steam") = 500 ∧
     FuelPredictor.emissionFactor ("steam") = 3) :=
  ⟨by decide, c10_unknown_engine_defaults ("steam") (by decide)⟩

/-- C9 counterexample: the 50th fuel feedback submission invokes retraining
(the flag in the result is true) although 50 is not a multiple of the claimed
batch size 100: the fuel predictor retrains every 50 entries, not every 100. -/
theorem c9_fuel_batch_counterexample :
    (FuelPredictor.updateModelWithActualData
        (List.replicate 49 ⟨[], 1, 0⟩)
        ⟨none, none, none, none, some ⟨1⟩⟩ 0).toOption.map
          (fun r => (r.1.length, r.2)) = some (50, true) ∧
    ¬((50 : ℕ) % 100 = 0) := by
  constructor
  · rfl
  · decide

/-- C9 amended: feedback updates never propagate an error (the catch swallows
it, leaving the buffer unchanged); a successful update appends the outcome, and
retraining is invoked exactly when the new buffer length is a multiple of the
batch size — 100 for the route optimizer but 50 for the fuel predictor. -/
theorem c9_feedback_amended :
    (∀ (td : List RouteOptimizer.RouteFeedback) (vd : RouteOptimizer.VoyageDoc),
      ∃ r, RouteOptimizer.updateModelWithFeedback td vd = .ok r) ∧
    (∀ (hist : List FuelPredictor.FuelFeedback) (vd : RouteOptimizer.VoyageDoc) (nowMs : ℚ),
      ∃ r, FuelPredictor.updateModelWithActualData hist vd nowMs = .ok r) ∧
    (∀ (td : List RouteOptimizer.RouteFeedback) pr cl om ar fp,
      RouteOptimizer.updateModelWithFeedback td ⟨some pr, some cl, some om, some ar, some fp⟩ =
        .ok (td ++ [⟨[pr.totalDistance / 5000, cl.weight / 50000],
              [om.optimalSpeed / 25, ar.actualDuration / 300, fp.actualConsumption / 1000]⟩],
             (td.length + 1) % 100 == 0)) ∧
    (∀ (hist : List FuelPredictor.FuelFeedback) a b c d fp (nowMs : ℚ),
      FuelPredictor.updateModelWithActualData hist ⟨a, b, c, d, some fp⟩ nowMs =
        .ok (hist ++ [⟨[], fp.actualConsumption, nowMs⟩], (hist.length + 1) % 50 == 0)) := by
  refine ⟨?_, ?_, ?_, ?_⟩
  · intro td vd
    unfold RouteOptimizer.updateModelWithFeedback
    cases h : RouteOptimizer.updateModelWithFeedbackTry td vd with
    | ok r => exact ⟨r, rfl⟩
    | error e => exact ⟨(td, false), rfl⟩
  · intro hist vd nowMs
    unfold FuelPredictor.updateModelWithActualData
    cases h : FuelPredictor.updateModelWithActualDataTry hist vd nowMs with
    | ok r => exact ⟨r, rfl⟩
    | error e => exact ⟨(hist, false), rfl⟩
  · intro td pr cl om ar fp
    simp [RouteOptimizer.updateModelWithFeedback, RouteOptimizer.updateModelWithFeedbackTry,
      RouteOptimizer.extractFeaturesFromVoyage, RouteOptimizer.extractResultsFromVoyage]
  · intro hist a b c d fp nowMs
    simp [FuelPredictor.updateModelWithActualData, FuelPredictor.updateModelWithActualDataTry,
      FuelPredictor.extractFeaturesFromVoyageData]

/-- C5 counterexample: with a raw predicted consumption of 1.005 tons and a
diesel engine, the returned emissionsEstimate is 3.22 but the returned
estimatedConsumption times the diesel factor 3.2 is 3.232: the two fields are
rounded to 2 decimal places independently, so the exact identity fails on the
returned values. -/
theorem c5_emissions_counterexample :
    (FuelPredictor.predictFuelConsumption (fun _ => 201 / 200000) 2025
        ⟨⟨some 40000, "diesel", some 2010⟩,
         ⟨⟨none, ⟨0, 0⟩⟩, ⟨none, ⟨1, 1⟩⟩, 1000, []⟩,
         ⟨1000, some 15⟩⟩).emissionsEstimate ≠
    (FuelPredictor.predictFuelConsumption (fun _ => 201 / 200000) 2025
        ⟨⟨some 40000, "diesel", some 2010⟩,
         ⟨⟨none, ⟨0, 0⟩⟩, ⟨none, ⟨1, 1⟩⟩, 1000, []⟩,
         ⟨1000, some 15⟩⟩).estimatedConsumption * FuelPredictor.emissionFactor ("diesel") := by
  norm_num [FuelPredictor.predictFuelConsumption, FuelPredictor.rawFuelConsumption,
    FuelPredictor.emissionFactor, FuelPredictor.calculateEmissions, round2, jsRound,
    Int.floor_eq_iff]

/-- C5 amended: the returned emissionsEstimate equals the unrounded raw
consumption times the fixed per-engine-type CO2 factor, rounded to 2 decimal
places (and estimatedConsumption is the raw consumption rounded the same way);
for engineType electric the fuel type multiplier is 0.1, the emissions factor
is 0.5 and the cost per ton is 100. -/
theorem c5_emissions_amended (model : List ℚ → ℚ) (currentYear : ℤ)
    (params : FuelPredictor.FuelParams) :
    (FuelPredictor.predictFuelConsumption model currentYear params).emissionsEstimate =
      round2 (FuelPredictor.rawFuelConsumption model currentYear params *
        FuelPredictor.emissionFactor params.ship.engineType) ∧
    (FuelPredictor.predictFuelConsumption model currentYear params).estimatedConsumption =
      round2 (FuelPredictor.rawFuelConsumption model currentYear params) ∧
    FuelPredictor.getFuelTypeMultiplier ("electric") = 0.1 ∧
    FuelPredictor.emissionFactor ("electric") = 0.5 ∧
    FuelPredictor.fuelPricePerTon ("electric") = 100 :=
  ⟨rfl, rfl, by simp [FuelPredictor.getFuelTypeMultiplier],
    by simp [FuelPredictor.emissionFactor], by simp [FuelPredictor.fuelPricePerTon]⟩

/-- C6: the confidence returned with every fuel prediction follows the spec's
adjustment ladder on (weather impact, distance, ship age) and always lies in
[0.5, 0.95]. -/
theorem c6_fuel_confidence (model : List ℚ → ℚ) (currentYear : ℤ)
    (params : FuelPredictor.FuelParams) :
    (FuelPredictor.predictFuelConsumption model currentYear params).confidence =
      FuelPredictor.specFuelConfidence
        (FuelPredictor.calculateWeatherImpact params.voyage.weatherForecast)
        params.routeData.totalDistance (FuelPredictor.shipAgeOf currentYear params.ship) ∧
    (1 : ℚ) / 2 ≤ (FuelPredictor.predictFuelConsumption model currentYear params).confidence ∧
    (FuelPredictor.predictFuelConsumption model currentYear params).confidence ≤ 19 / 20 := by
  refine ⟨rfl, ?_, ?_⟩
  · show (1 : ℚ) / 2 ≤ FuelPredictor.calculatePredictionConfidence currentYear params
    unfold FuelPredictor.calculatePredictionConfidence
    exact le_trans (by norm_num) (le_max_left _ _)
  · show FuelPredictor.calculatePredictionConfidence currentYear params ≤ 19 / 20
    unfold FuelPredictor.calculatePredictionConfidence
    exact max_le (by norm_num) (le_trans (min_le_left _ _) (by norm_num))

/-- Head of an ordered insert for the descending risk order: the inserted
element wins unless the current head has strictly larger risk. -/
theorem head_orderedInsert_risk (x : MaintenanceForecaster.ComponentPrediction)
    (l : List MaintenanceForecaster.ComponentPrediction) :
    (List.orderedInsert MaintenanceForecaster.riskDescOrder x l).head? =
      some (match l.head? with
            | none => x
            | some y => if x.riskScore < y.riskScore then y else x) := by
  cases l with
  | nil => rfl
  | cons y ys =>
    simp only [List.orderedInsert, List.head?_cons]
    by_cases h : MaintenanceForecaster.riskDescOrder x y
    · rw [if_pos h]
      simp only [List.head?_cons]
      rw [if_neg (not_lt.mpr h)]
    · rw [if_neg h]
      simp only [List.head?_cons]
      rw [if_pos (lt_of_not_le h)]

/-- The head of the stable descending sort is the earliest entry of maximal
risk score. -/
theorem head_sortByRiskDesc (l : List MaintenanceForecaster.ComponentPrediction) :
    (MaintenanceForecaster.sortByRiskDesc l).head? = MaintenanceForecaster.firstMaxByRisk l := by
  induction l with
  | nil => rfl
  | cons p ps ih =>
    show (List.orderedInsert MaintenanceForecaster.riskDescOrder p
      (List.insertionSort MaintenanceForecaster.riskDescOrder ps)).head? = _
    rw [head_orderedInsert_risk]
    rw [show (List.insertionSort MaintenanceForecaster.riskDescOrder ps).head? =
      MaintenanceForecaster.firstMaxByRisk ps from ih]
    cases h : MaintenanceForecaster.firstMaxByRisk ps with
    | none => simp [MaintenanceForecaster.firstMaxByRisk, h]
    | some m =>
      simp only [MaintenanceForecaster.firstMaxByRisk, h]
      split <;> rfl

/-- C1: every maintenance forecast has exactly 6 predictions, covering each of
the six fixed component types exactly once, sorted descending by riskScore;
nextCriticalMaintenance is the first entry of that sorted sequence, which is
the entry of maximal riskScore with ties broken by declaration order of the
component types. -/
theorem c1_forecast_shape (mainModel : List ℚ → ℚ × ℚ) (riskModel : List ℚ → ℚ)
    (currentYear : ℤ) (nowMs : ℚ) (shipData : MaintenanceForecaster.ShipData)
    (usageData : MaintenanceForecaster.UsageData) (rng : ℕ → ℚ) :
    (MaintenanceForecaster.predictMaintenance mainModel riskModel currentYear nowMs
        shipData usageData rng).predictions.length = 6 ∧
    ((MaintenanceForecaster.predictMaintenance mainModel riskModel currentYear nowMs
        shipData usageData rng).predictions.map (fun p => p.componentType)).Perm
      MaintenanceForecaster.componentTypes ∧
    List.Sorted MaintenanceForecaster.riskDescOrder
      (MaintenanceForecaster.predictMaintenance mainModel riskModel currentYear nowMs
        shipData usageData rng).predictions ∧
    (MaintenanceForecaster.predictMaintenance mainModel riskModel currentYear nowMs
        shipData usageData rng).nextCriticalMaintenance =
      (MaintenanceForecaster.predictMaintenance mainModel riskModel currentYear nowMs
        shipData usageData rng).predictions.head? ∧
    (MaintenanceForecaster.predictMaintenance mainModel riskModel currentYear nowMs
        shipData usageData rng).nextCriticalMaintenance =
      MaintenanceForecaster.firstMaxByRisk
        (MaintenanceForecaster.rawPredictions mainModel riskModel currentYear nowMs
          shipData usageData rng) := by
  have hperm : (MaintenanceForecaster.sortByRiskDesc
      (MaintenanceForecaster.rawPredictions mainModel riskModel currentYear nowMs
        shipData usageData rng)).Perm
      (MaintenanceForecaster.rawPredictions mainModel riskModel currentYear nowMs
        shipData usageData rng) :=
    List.perm_insertionSort _ _
  refine ⟨?_, ?_, ?_, rfl, ?_⟩
  · show (MaintenanceForecaster.sortByRiskDesc _).length = 6
    rw [hperm.length_eq]
    rfl
  · have hmap : (MaintenanceForecaster.rawPredictions mainModel riskModel currentYear nowMs
        shipData usageData rng).map (fun p => p.componentType) =
      MaintenanceForecaster.componentTypes := rfl
    exact hmap ▸ hperm.map (fun p => p.componentType)
  · exact List.sorted_insertionSort MaintenanceForecaster.riskDescOrder _
  · exact head_sortByRiskDesc _

/-- C4 counterexample: two maintenance component predictions computed from
identical ship data, usage data, trained models and clock, differing only in
the fresh per-call Math.random() draw used for componentAge, yield different
failureProbability values — so not all maintenance forecast fields are equal
across two runs with identical inputs. -/
theorem c4_maintenance_random_counterexample :
    (MaintenanceForecaster.predictComponentMaintenance (fun _ => (0, 0))
        (fun input => input.headD 0) 2025 0 ⟨some 2010, none, none, false⟩
        ⟨none, none, none, none, none, false, none, none, 0⟩ .engine 0 0).failureProbability ≠
    (MaintenanceForecaster.predictComponentMaintenance (fun _ => (0, 0))
        (fun input => input.headD 0) 2025 0 ⟨some 2010, none, none, false⟩
        ⟨none, none, none, none, none, false, none, none, 0⟩ .engine 0 (1 / 2)).failureProbability := by
  norm_num [MaintenanceForecaster.predictComponentMaintenance,
    MaintenanceForecaster.componentInput, MaintenanceForecaster.shipAgeOf,
    MaintenanceForecaster.engineHoursOf, jsOrZ, jsOrQ, jsRound, Int.floor_eq_iff]

/-- C4 amended: with identical inputs and fixed trained models, the fields of a
component maintenance prediction that do not depend on the fresh per-call
random draw (componentType, daysUntilMaintenance, riskScore, confidence,
priority, estimatedCost, recommendedAction, predictedFailureDate offset) are
equal across two runs, and likewise the route optimizer's totalDistance,
waypoints and confidence do not depend on its fresh seaConditions,
trafficDensity and portCongestion draws; but failureProbability (and the
recommendation strings derived from it) may differ between maintenance runs. -/
theorem c4_idempotence_amended :
    (∀ (mainModel : List ℚ → ℚ × ℚ) (riskModel : List ℚ → ℚ) (currentYear : ℤ) (nowMs : ℚ)
        (shipData : MaintenanceForecaster.ShipData) (usageData : MaintenanceForecaster.UsageData)
        (ct : MaintenanceForecaster.ComponentType) (idx : ℕ) (rng1 rng2 : ℚ),
      (MaintenanceForecaster.predictComponentMaintenance mainModel riskModel currentYear nowMs
          shipData usageData ct idx rng1).componentType =
        (MaintenanceForecaster.predictComponentMaintenance mainModel riskModel currentYear nowMs
          shipData usageData ct idx rng2).componentType ∧
      (MaintenanceForecaster.predictComponentMaintenance mainModel riskModel currentYear nowMs
          shipData usageData ct idx rng1).daysUntilMaintenance =
        (MaintenanceForecaster.predictComponentMaintenance mainModel riskModel currentYear nowMs
          shipData usageData ct idx rng2).daysUntilMaintenance ∧
      (MaintenanceForecaster.predictComponentMaintenance mainModel riskModel currentYear nowMs
          shipData usageData ct idx rng1).riskScore =
        (MaintenanceForecaster.predictComponentMaintenance mainModel riskModel currentYear nowMs
          shipData usageData ct idx rng2).riskScore ∧
      (MaintenanceForecaster.predictComponentMaintenance mainModel riskModel currentYear nowMs
          shipData usageData ct idx rng1).confidence =
        (MaintenanceForecaster.predictComponentMaintenance mainModel riskModel currentYear nowMs
          shipData usageData ct idx rng2).confidence ∧
      (MaintenanceForecaster.predictComponentMaintenance mainModel riskModel currentYear nowMs
          shipData usageData ct idx rng1).priority =
        (MaintenanceForecaster.predictComponentMaintenance mainModel riskModel currentYear nowMs
          shipData usageData ct idx rng2).priority ∧
      (MaintenanceForecaster.predictComponentMaintenance mainModel riskModel currentYear nowMs
          shipData usageData ct idx rng1).estimatedCost =
        (MaintenanceForecaster.predictComponentMaintenance mainModel riskModel currentYear nowMs
          shipData usageData ct idx rng2).estimatedCost ∧
      (MaintenanceForecaster.predictComponentMaintenance mainModel riskModel currentYear nowMs
          shipData usageData ct idx rng1).recommendedAction =
        (MaintenanceForecaster.predictComponentMaintenance mainModel riskModel currentYear nowMs
          shipData usageData ct idx rng2).recommendedAction ∧
      (MaintenanceForecaster.predictComponentMaintenance mainModel riskModel currentYear nowMs
          shipData usageData ct idx rng1).predictedFailureOffsetMs =
        (MaintenanceForecaster.predictComponentMaintenance mainModel riskModel currentYear nowMs
          shipData usageData ct idx rng2).predictedFailureOffsetMs) ∧
    (∀ (model : List ℝ → ℝ × ℝ × ℝ) (origin destination : RouteOptimizer.GeoPointR)
        (cargoWeight : ℝ) (forecast : List WeatherObservation) (sc1 td1 pc1 sc2 td2 pc2 : ℚ),
      (RouteOptimizer.optimizeRoute model origin destination cargoWeight forecast
          sc1 td1 pc1).totalDistance =
        (RouteOptimizer.optimizeRoute model origin destination cargoWeight forecast
          sc2 td2 pc2).totalDistance ∧
      (RouteOptimizer.optimizeRoute model origin destination cargoWeight forecast
          sc1 td1 pc1).waypoints =
        (RouteOptimizer.optimizeRoute model origin destination cargoWeight forecast
          sc2 td2 pc2).waypoints ∧
      (RouteOptimizer.optimizeRoute model origin destination cargoWeight forecast
          sc1 td1 pc1).confidence =
        (RouteOptimizer.optimizeRoute model origin destination cargoWeight forecast
          sc2 td2 pc2).confidence) :=
  ⟨fun _ _ _ _ _ _ _ _ _ _ => ⟨rfl, rfl, rfl, rfl, rfl, rfl, rfl, rfl⟩,
   fun _ _ _ _ _ _ _ _ _ _ _ => ⟨rfl, rfl, rfl⟩⟩

/-- C8: the great-circle distance is symmetric in its two coordinates and is
zero from any point to itself. -/
theorem c8_distance_symm_self :
    (∀ a b : RouteOptimizer.GeoPointR,
      RouteOptimizer.calculateDistance a b = RouteOptimizer.calculateDistance b a) ∧
    (∀ a : RouteOptimizer.GeoPointR, RouteOptimizer.calculateDistance a a = 0) := by
  constructor
  · intro a b
    simp only [RouteOptimizer.calculateDistance]
    have hA :
        Real.sin ((b.latitude - a.latitude) * Real.pi / 180 / 2) *
            Real.sin ((b.latitude - a.latitude) * Real.pi / 180 / 2) +
          Real.cos (a.latitude * Real.pi / 180) * Real.cos (b.latitude * Real.pi / 180) *
            Real.sin ((b.longitude - a.longitude) * Real.pi / 180 / 2) *
            Real.sin ((b.longitude - a.longitude) * Real.pi / 180 / 2) =
        Real.sin ((a.latitude - b.latitude) * Real.pi / 180 / 2) *
            Real.sin ((a.latitude - b.latitude) * Real.pi / 180 / 2) +
          Real.cos (b.latitude * Real.pi / 180) * Real.cos (a.latitude * Real.pi / 180) *
            Real.sin ((a.longitude - b.longitude) * Real.pi / 180 / 2) *
            Real.sin ((a.longitude - b.longitude) * Real.pi / 180 / 2) := by
      have h1 : (b.latitude - a.latitude) * Real.pi / 180 / 2 =
          -((a.latitude - b.latitude) * Real.pi / 180 / 2) := by ring
      have h2 : (b.longitude - a.longitude) * Real.pi / 180 / 2 =
          -((a.longitude - b.longitude) * Real.pi / 180 / 2) := by ring
      rw [h1, h2]
      simp only [Real.sin_neg]
      ring
    rw [hA]
  · intro a
    have hatan : RouteOptimizer.atan2 0 1 = 0 := by
      unfold RouteOptimizer.atan2
      rw [if_pos (by norm_num : (0 : ℝ) < 1)]
      norm_num
    simp only [RouteOptimizer.calculateDistance, sub_self, zero_mul, zero_div, Real.sin_zero,
      mul_zero, add_zero, Real.sqrt_zero, sub_zero, Real.sqrt_one, hatan]

/-- C3: every route optimization result carries the waypoints generated by
generateWaypoints(origin, destination, 10): exactly 11 entries, the i-th being
the linear interpolation at ratio i/10 rounded to 6 decimal places, so the
first one's coordinates are the rounded origin and the last one's the rounded
destination, and every waypoint carries the fixed nominal speed 15. -/
theorem c3_route_waypoints (model : List ℝ → ℝ × ℝ × ℝ)
    (origin destination : RouteOptimizer.GeoPointR) (cargoWeight : ℝ)
    (forecast : List WeatherObservation) (sc td pc : ℚ) :
    (RouteOptimizer.optimizeRoute model origin destination cargoWeight forecast
        sc td pc).waypoints = RouteOptimizer.generateWaypoints origin destination 10 ∧
    (RouteOptimizer.generateWaypoints origin destination 10).length = 11 ∧
    (∀ i : Fin 11, (RouteOptimizer.generateWaypoints origin destination 10)[(i : ℕ)]? =
      some { latitude := RouteOptimizer.round6R (origin.latitude +
               (destination.latitude - origin.latitude) * (((i : ℕ) : ℝ) / 10)),
             longitude := RouteOptimizer.round6R (origin.longitude +
               (destination.longitude - origin.longitude) * (((i : ℕ) : ℝ) / 10)),
             timestampOffsetMs := ((i : ℕ) : ℝ) * 3600000,
             speed := 15 }) ∧
    (RouteOptimizer.generateWaypoints origin destination 10)[(0 : ℕ)]? =
      some { latitude := RouteOptimizer.round6R origin.latitude,
             longitude := RouteOptimizer.round6R origin.longitude,
             timestampOffsetMs := 0,
             speed := 15 } ∧
    (RouteOptimizer.generateWaypoints origin destination 10)[(10 : ℕ)]? =
      some { latitude := RouteOptimizer.round6R destination.latitude,
             longitude := RouteOptimizer.round6R destination.longitude,
             timestampOffsetMs := 10 * 3600000,
             speed := 15 } ∧
    (∀ w ∈ RouteOptimizer.generateWaypoints origin destination 10, w.speed = 15) := by
  refine ⟨rfl, ?_, ?_, ?_, ?_, ?_⟩
  · simp only [RouteOptimizer.generateWaypoints, List.length_map, List.length_range]
  · intro i
    have hi : (i : ℕ) < 10 + 1 := i.isLt
    simp only [RouteOptimizer.generateWaypoints, List.getElem?_map, List.getElem?_range hi,
      Option.map_some', Option.some.injEq, RouteOptimizer.WaypointR.mk.injEq, Nat.cast_ofNat]
  · have h0 : (0 : ℕ) < 10 + 1 := by norm_num
    simp only [RouteOptimizer.generateWaypoints, List.getElem?_map, List.getElem?_range h0,
      Option.map_some', Option.some.injEq, RouteOptimizer.WaypointR.mk.injEq]
    norm_num
  · have h10 : (10 : ℕ) < 10 + 1 := by norm_num
    simp only [RouteOptimizer.generateWaypoints, List.getElem?_map, List.getElem?_range h10,
      Option.map_some', Option.some.injEq, RouteOptimizer.WaypointR.mk.injEq, Nat.cast_ofNat]
    refine ⟨?_, ?_, trivial, trivial⟩
    · congr 1
      ring
    · congr 1
      ring
  · intro w hw
    simp only [RouteOptimizer.generateWaypoints, List.mem_map] at hw
    obtain ⟨i, _, rfl⟩ := hw
    rfl

/-- C7: the route weather severity score is always in [0, 10], and on an empty
(or missing) forecast it equals the documented default 3. -/
theorem c7_weather_score_bounds :
    (∀ forecast, 0 ≤ RouteOptimizer.calculateWeatherScore forecast ∧
      RouteOptimizer.calculateWeatherScore forecast ≤ 10) ∧
    RouteOptimizer.calculateWeatherScore [] = 3 := by
  constructor
  · intro forecast
    unfold RouteOptimizer.calculateWeatherScore
    split
    · norm_num
    · rename_i hne
      constructor
      · refine le_min (by norm_num) ?_
        refine div_nonneg ?_ (by positivity)
        refine List.sum_nonneg ?_
        intro x hx
        obtain ⟨f, _, rfl⟩ := List.mem_map.mp hx
        have t1 : (0 : ℚ) ≤
            (if optGT f.windSpeed 25 then (3 : ℚ)
             else if optGT f.windSpeed 15 then 2
             else if optGT f.windSpeed 10 then 1
             else 0) := by split_ifs <;> norm_num
        have t2 : (0 : ℚ) ≤
            (if optGT f.waveHeight 4 then (3 : ℚ)
             else if optGT f.waveHeight 2 then 2
             else if optGT f.waveHeight 1 then 1
             else 0) := by split_ifs <;> norm_num
        have t3 : (0 : ℚ) ≤
            (if optLT f.visibility 1 then (2 : ℚ)
             else if optLT f.visibility 5 then 1
             else 0) := by split_ifs <;> norm_num
        positivity
      · exact min_le_left _ _
  · rfl

end ShipPlanning
